import Mathlib

/-!
Verification development for the polishInvoicingback repository.

This file shallowly embeds the KSeF session/invoice lifecycle proxy and its
in-memory mock simulator:
  * `src/config/ksef-config.ts`  — mode switch / config resolver,
  * `src/routes/ksef.ts`         — real-gateway routes (environment resolver,
    signed/token session init, invoice send),
  * `src/mock/ksef-mock-server.ts` — the in-memory mock simulator.

JavaScript strings are modelled as Lean `String`s, byte buffers as `List Nat`
(each element < 256), JS `Date` values as millisecond counts plus their ISO
rendering, and `process.env` as a record of `Option String` fields.  Randomness
(`crypto.randomBytes`) and the wall clock are supplied through an explicit
oracle record, so every handler is a pure function of its inputs.
-/

/-- JavaScript `a || b` for an optional string: `undefined` and the empty
string are falsy and select the default. -/
def jsOr (o : Option String) (d : String) : String :=
  match o with
  | none => d
  | some s => if s = "" then d else s

/-- JavaScript truthiness of an optional string value: defined and nonempty. -/
def jsTruthy (o : Option String) : Bool :=
  match o with
  | none => false
  | some s => s != ""

/-- ASCII lower-casing of a string, modelling `String.prototype.toLowerCase`
on the ASCII range (the only range relevant to the environment-name lookup). -/
def asciiLower (s : String) : String :=
  String.mk (s.toList.map Char.toLower)

/-! ## Mode switch / config resolver (`src/config/ksef-config.ts`) -/

/-- The fields of `process.env` read by the config resolver and the routes.
`USE_REAL_KSEF` is carried because the spec mentions it, even though
`getKSeFConfig` never reads it. -/
structure ProcessEnv where
  USE_MOCK_KSEF : Option String
  USE_REAL_KSEF : Option String
  NODE_ENV : Option String
  KSEF_ENVIRONMENT : Option String
  BACKEND_URL : Option String
  KSEF_API_URL : Option String
deriving DecidableEq, Repr

/-- Result record of `getKSeFConfig` (`KSeFConfig` in `ksef-config.ts`).
`realBaseUrl` is `Option` because `KSEF_ENVIRONMENTS[environment]` is
`undefined` for an unknown `KSEF_ENVIRONMENT` value. -/
structure KSeFConfig where
  useMock : Bool
  mockBaseUrl : String
  realBaseUrl : Option String
  environment : String
deriving DecidableEq, Repr

/-- The `KSEF_ENVIRONMENTS` table of `ksef-config.ts` (with `/api` suffix). -/
def KSEF_ENVIRONMENTS_CONFIG : String → Option String
  | "test" => some "https://ksef-test.mf.gov.pl/api"
  | "demo" => some "https://ksef-demo.mf.gov.pl/api"
  | "prod" => some "https://ksef.mf.gov.pl/api"
  | _ => none

/-- `getKSeFConfig` from `ksef-config.ts`:
`useMock = USE_MOCK_KSEF === 'true' || (NODE_ENV === 'development' && USE_MOCK_KSEF !== 'false')`,
`environment = KSEF_ENVIRONMENT || 'test'`, `baseUrl = BACKEND_URL || 'http://localhost:3001'`. -/
def getKSeFConfig (env : ProcessEnv) : KSeFConfig :=
  let useMock := (env.USE_MOCK_KSEF == some "true") ||
      ((env.NODE_ENV == some "development") && !(env.USE_MOCK_KSEF == some "false"))
  let environment := jsOr env.KSEF_ENVIRONMENT "test"
  let baseUrl := jsOr env.BACKEND_URL "http://localhost:3001"
  { useMock := useMock
    mockBaseUrl := baseUrl ++ "/api/ksef-mock"
    realBaseUrl := KSEF_ENVIRONMENTS_CONFIG environment
    environment := environment }

/-! ## Environment resolver of the routes file (`src/routes/ksef.ts`) -/

/-- The `KSEF_ENVIRONMENTS` table of `routes/ksef.ts` (no `/api` suffix). -/
def KSEF_ENVIRONMENTS_ROUTES : String → Option String
  | "test" => some "https://ksef-test.mf.gov.pl"
  | "demo" => some "https://ksef-demo.mf.gov.pl"
  | "prod" => some "https://ksef.mf.gov.pl"
  | _ => none

/-- `getKsefUrl` from `routes/ksef.ts`:
`KSEF_ENVIRONMENTS[environment?.toLowerCase()] || process.env.KSEF_API_URL || KSEF_ENVIRONMENTS.test`. -/
def getKsefUrl (ksefApiUrl : Option String) (environment : Option String) : String :=
  let fallback := jsOr ksefApiUrl "https://ksef-test.mf.gov.pl"
  match environment with
  | none => fallback
  | some e =>
    match KSEF_ENVIRONMENTS_ROUTES (asciiLower e) with
    | some url => url
    | none => fallback

/-! ## Mock KSeF simulator (`src/mock/ksef-mock-server.ts`)

The random and clock inputs consumed by one request are supplied through a
`GenCtx` oracle: `refNum n` is the result of the n-th
`generateReferenceNumber()` call performed while handling the request, the
`chalHex*` fields are the three `randomHex` segments drawn by
`generateChallenge`, `ksefHex` is the 12-hex-digit string drawn by
`generateKSeFNumber`, and `nowMs`/`isoTimestamp`/`dateStr` are the current
time as milliseconds, as `toISOString()`, and as
`toISOString().slice(0,10)` with the dashes removed. -/

structure GenCtx where
  nowMs : Nat
  isoTimestamp : String
  dateStr : String
  chalHexA : String
  chalHexB : String
  chalHexC : String
  refNum : Nat → String
  ksefHex : String
  sessionTokenGen : String
  credTokenHex : String

/-- `s.slice(a, b)` for the JS strings used by `generateKSeFNumber`. -/
def sliceStr (s : String) (a b : Nat) : String :=
  String.mk ((s.toList.drop a).take (b - a))

/-- `generateChallenge` from `ksef-mock-server.ts`: the date string, the
literal `-CR-`, and random uppercase hex segments of lengths 10, 10 and 2,
joined by dashes. -/
def generateChallenge (g : GenCtx) : String :=
  g.dateStr ++ "-CR-" ++ g.chalHexA ++ "-" ++ g.chalHexB ++ "-" ++ g.chalHexC

/-- `generateReferenceNumber` from `ksef-mock-server.ts`; `n` indexes the
call within the current request (the oracle supplies each fresh value). -/
def generateReferenceNumber (g : GenCtx) (n : Nat) : String :=
  g.refNum n

/-- `generateKSeFNumber(nip)` from `ksef-mock-server.ts`: 12 random hex digits
sliced as `0..6`, `6..12`, `12..14` (the last slice is past the end, hence
empty in the source as well). -/
def generateKSeFNumber (g : GenCtx) (nip : String) : String :=
  nip ++ "-" ++ g.dateStr ++ "-" ++ sliceStr g.ksefHex 0 6 ++ "-" ++
    sliceStr g.ksefHex 6 12 ++ "-" ++ sliceStr g.ksefHex 12 14

/-- One entry of `exceptionDetailList` in the mock error envelope. -/
structure ExceptionDetail where
  exceptionCode : Nat
  exceptionDescription : String
deriving DecidableEq, Repr

/-- The error envelope built by `createErrorResponse` in `ksef-mock-server.ts`. -/
structure ErrorEnvelope where
  serviceCtx : String
  serviceCode : String
  serviceName : String
  timestamp : String
  referenceNumber : String
  exceptionDetailList : List ExceptionDetail
deriving DecidableEq, Repr

/-- `createErrorResponse(code, description, serviceCtx = 'srvMOCK')`; the two
generated reference numbers are the first two drawn for the request. -/
def createErrorResponse (g : GenCtx) (code : Nat) (description : String) : ErrorEnvelope :=
  { serviceCtx := "srvMOCK"
    serviceCode := generateReferenceNumber g 0
    serviceName := "mock.service"
    timestamp := g.isoTimestamp
    referenceNumber := generateReferenceNumber g 1
    exceptionDetailList := [{ exceptionCode := code, exceptionDescription := description }] }

/-- A stored mock session (value type of `mockSessions`).  The creation
`Date` is carried both as epoch milliseconds and as its ISO rendering. -/
structure MockSession where
  createdAtMs : Nat
  createdAtIso : String
  referenceNumber : String
  contextNip : String
  status : String
deriving DecidableEq, Repr

/-- A stored mock invoice (value type of `mockInvoices`). -/
structure MockInvoice where
  ksefReferenceNumber : String
  sessionToken : String
  status : String
  createdAtMs : Nat
  createdAtIso : String
  invoiceNumber : String
deriving DecidableEq, Repr

/-- The mock simulator state: the `mockSessions` and `mockInvoices` maps,
modelled as insertion-ordered association lists. -/
structure MockState where
  sessions : List (String × MockSession)
  invoices : List (String × MockInvoice)
deriving DecidableEq, Repr

/-- The `invoiceStatus` sub-object included once an invoice is accepted. -/
structure InvoiceStatusDetails where
  invoiceNumber : String
  ksefReferenceNumber : String
  acquisitionTimestamp : String
deriving DecidableEq, Repr

/-- One entry of the `invoiceHeaderList` synthesized by `Query/Invoice/Sync`. -/
structure InvoiceHeader where
  invoiceNumber : String
  ksefReferenceNumber : String
  acquisitionTimestamp : String
  invoiceType : String
  subjectType : String
deriving DecidableEq, Repr

/-- The JSON (or raw-byte) bodies the mock endpoints can produce; each
variant lists exactly the fields of the corresponding JS response object
(the shared `timestamp`/`referenceNumber` come from `createSuccessResponse`). -/
inductive MockRespBody
  | error (e : ErrorEnvelope)
  | challengeResp (challenge : String) (timestamp : String)
  | sessionStatusResp (timestamp referenceNumber : String) (processingCode : Nat)
      (processingDescription : String) (activeElements processingElementsCount : Nat)
      (timestampStart : String)
  | terminateResp (timestamp referenceNumber : String) (processingCode : Nat)
      (processingDescription : String)
  | invoiceSentResp (timestamp referenceNumber elementReferenceNumber : String)
      (processingCode : Nat) (processingDescription : String)
  | invoiceStatusResp (timestamp referenceNumber elementReferenceNumber : String)
      (processingCode : Nat) (processingDescription : String)
      (invoiceStatus : Option InvoiceStatusDetails)
  | invoiceBytes (bytes : List Nat)
  | queryResp (timestamp referenceNumber : String) (invoiceHeaderList : List InvoiceHeader)
      (numberOfElements pageSize pageOffset : Nat) (hasMoreElements : Bool)
  | credentialTokenResp (timestamp referenceNumber authorisationToken
      elementReferenceNumber : String)
deriving DecidableEq, Repr

/-- An HTTP response of the mock router: status code and body. -/
structure HttpResp where
  status : Nat
  body : MockRespBody
deriving DecidableEq, Repr

/-- The 401 response shared by all session-guarded mock endpoints:
`res.status(401).json(createErrorResponse(21003, 'Nieautoryzowany dostęp'))`. -/
def unauthorizedResp (g : GenCtx) : HttpResp :=
  ⟨401, .error (createErrorResponse g 21003 "Nieautoryzowany dostęp")⟩

/-- The session guard `!sessionToken || !mockSessions.has(sessionToken)`
shared by the mock endpoints, returning the session on success. -/
def sessionLookup (st : MockState) (tok : Option String) : Option MockSession :=
  match tok with
  | none => none
  | some t => if t = "" then none else st.sessions.lookup t

/-! ## Byte-string encodings

`nodeBase64Decode` models `Buffer.from(s, 'base64')` (invalid characters,
including `=` padding, are skipped; a trailing group of 2 or 3 sextets yields
1 or 2 bytes).  `base64EncodeBytes` is standard base64 encoding with padding,
used to model a client encoding bytes before submitting them.
`utf8DecodeReplace` models `buffer.toString('utf-8')` (WHATWG decoding with
U+FFFD replacement), returning the code points of the resulting JS string;
`utf8EncodeCps` models the UTF-8 bytes produced when such a string is sent
over the wire. -/

/-- The base64 alphabet: sextet to character. -/
def b64EncTable (n : Nat) : Char :=
  if n < 26 then Char.ofNat (65 + n)
  else if n < 52 then Char.ofNat (97 + (n - 26))
  else if n < 62 then Char.ofNat (48 + (n - 52))
  else if n = 62 then '+' else '/'

/-- The base64 alphabet: character to sextet (`none` for non-alphabet
characters, which Node's decoder skips). -/
def b64CharVal (c : Char) : Option Nat :=
  if 'A' ≤ c ∧ c ≤ 'Z' then some (c.toNat - 65)
  else if 'a' ≤ c ∧ c ≤ 'z' then some (c.toNat - 97 + 26)
  else if '0' ≤ c ∧ c ≤ '9' then some (c.toNat - 48 + 52)
  else if c = '+' then some 62
  else if c = '/' then some 63
  else none

/-- Standard base64 encoding of a byte list, with `=` padding. -/
def base64EncodeBytes : List Nat → List Char
  | b1 :: b2 :: b3 :: rest =>
    b64EncTable (b1 / 4) :: b64EncTable (b1 % 4 * 16 + b2 / 16) ::
      b64EncTable (b2 % 16 * 4 + b3 / 64) :: b64EncTable (b3 % 64) ::
      base64EncodeBytes rest
  | [b1, b2] => [b64EncTable (b1 / 4), b64EncTable (b1 % 4 * 16 + b2 / 16),
      b64EncTable (b2 % 16 * 4), '=']
  | [b1] => [b64EncTable (b1 / 4), b64EncTable (b1 % 4 * 16), '=', '=']
  | [] => []

/-- Reassembling bytes from a sextet stream, as Node's base64 decoder does
after discarding non-alphabet characters. -/
def b64DecodeSextets : List Nat → List Nat
  | s1 :: s2 :: s3 :: s4 :: rest =>
    (s1 * 4 + s2 / 16) :: (s2 % 16 * 16 + s3 / 4) :: (s3 % 4 * 64 + s4) ::
      b64DecodeSextets rest
  | [s1, s2, s3] => [s1 * 4 + s2 / 16, s2 % 16 * 16 + s3 / 4]
  | [s1, s2] => [s1 * 4 + s2 / 16]
  | _ => []

/-- `Buffer.from(s, 'base64')`: keep alphabet characters, regroup sextets. -/
def nodeBase64Decode (s : String) : List Nat :=
  b64DecodeSextets (s.toList.filterMap b64CharVal)

/-- UTF-8 encoding of one Unicode code point (assumed a scalar value). -/
def utf8EncodeCp (c : Nat) : List Nat :=
  if c < 0x80 then [c]
  else if c < 0x800 then [0xC0 + c / 64, 0x80 + c % 64]
  else if c < 0x10000 then [0xE0 + c / 4096, 0x80 + c / 64 % 64, 0x80 + c % 64]
  else [0xF0 + c / 262144, 0x80 + c / 4096 % 64, 0x80 + c / 64 % 64, 0x80 + c % 64]

/-- UTF-8 encoding of a code-point sequence. -/
def utf8EncodeCps (cs : List Nat) : List Nat :=
  cs.flatMap utf8EncodeCp

/-- A Unicode scalar value: below 0x110000 and not a surrogate. -/
def IsScalar (c : Nat) : Prop :=
  c < 0x110000 ∧ ¬(0xD800 ≤ c ∧ c ≤ 0xDFFF)

instance (c : Nat) : Decidable (IsScalar c) := by
  unfold IsScalar; infer_instance

/-- Continuation-byte test `0x80 ≤ b ≤ 0xBF`. -/
def utf8Cont (b : Nat) : Bool :=
  0x80 ≤ b && b < 0xC0

/-- Lower bound for the second byte of a multi-byte sequence (WHATWG). -/
def utf8Lo2 (b1 : Nat) : Nat :=
  if b1 = 0xE0 then 0xA0 else if b1 = 0xF0 then 0x90 else 0x80

/-- Upper bound for the second byte of a multi-byte sequence (WHATWG). -/
def utf8Hi2 (b1 : Nat) : Nat :=
  if b1 = 0xED then 0x9F else if b1 = 0xF4 then 0x8F else 0xBF

/-- WHATWG UTF-8 decoding with U+FFFD replacement, as performed by
`buffer.toString('utf-8')`; returns the code points of the JS string. -/
def utf8DecodeReplace : List Nat → List Nat
  | [] => []
  | b1 :: rest =>
    if b1 < 0x80 then b1 :: utf8DecodeReplace rest
    else if b1 < 0xC2 ∨ 0xF4 < b1 then 0xFFFD :: utf8DecodeReplace rest
    else if b1 < 0xE0 then
      match rest with
      | [] => [0xFFFD]
      | b2 :: r2 =>
        if utf8Lo2 b1 ≤ b2 ∧ b2 ≤ utf8Hi2 b1 then
          ((b1 - 0xC0) * 64 + (b2 - 0x80)) :: utf8DecodeReplace r2
        else 0xFFFD :: utf8DecodeReplace (b2 :: r2)
    else if b1 < 0xF0 then
      match rest with
      | [] => [0xFFFD]
      | b2 :: r2 =>
        if utf8Lo2 b1 ≤ b2 ∧ b2 ≤ utf8Hi2 b1 then
          match r2 with
          | [] => [0xFFFD]
          | b3 :: r3 =>
            if utf8Cont b3 then
              ((b1 - 0xE0) * 4096 + (b2 - 0x80) * 64 + (b3 - 0x80)) :: utf8DecodeReplace r3
            else 0xFFFD :: utf8DecodeReplace (b3 :: r3)
        else 0xFFFD :: utf8DecodeReplace (b2 :: r2)
    else
      match rest with
      | [] => [0xFFFD]
      | b2 :: r2 =>
        if utf8Lo2 b1 ≤ b2 ∧ b2 ≤ utf8Hi2 b1 then
          match r2 with
          | [] => [0xFFFD]
          | b3 :: r3 =>
            if utf8Cont b3 then
              match r3 with
              | [] => [0xFFFD]
              | b4 :: r4 =>
                if utf8Cont b4 then
                  ((b1 - 0xF0) * 262144 + (b2 - 0x80) * 4096 + (b3 - 0x80) * 64 + (b4 - 0x80)) ::
                    utf8DecodeReplace r4
                else 0xFFFD :: utf8DecodeReplace (b4 :: r4)
            else 0xFFFD :: utf8DecodeReplace (b3 :: r3)
        else 0xFFFD :: utf8DecodeReplace (b2 :: r2)

/-- The UTF-8 bytes of a Lean/JS string (`Buffer.from(s, 'utf-8')`, and also
the wire bytes of a string request body). -/
def stringUtf8Bytes (s : String) : List Nat :=
  utf8EncodeCps (s.toList.map Char.toNat)

/-! ## Mock endpoint handlers

Each handler is a pure function `GenCtx → MockState → inputs → HttpResp × MockState`
mirroring one route of `ksef-mock-server.ts`.  The session-token header is an
`Option String` (absent header = `none`). -/

/-- The request body field `contextIdentifier` of `AuthorisationChallenge`;
each sub-field is optional to model absent JSON properties. -/
structure ContextIdentifier where
  type : Option String
  identifier : Option String
deriving DecidableEq, Repr

/-- `POST /online/Session/AuthorisationChallenge`: rejects a missing
`contextIdentifier` or falsy `type`/`identifier` with 400 / 21001, otherwise
returns 201 with a fresh challenge and the current timestamp. -/
def authorisationChallengeH (g : GenCtx) (st : MockState)
    (contextIdentifier : Option ContextIdentifier) : HttpResp × MockState :=
  let invalid :=
    match contextIdentifier with
    | none => true
    | some ci => !jsTruthy ci.type || !jsTruthy ci.identifier
  if invalid then
    (⟨400, .error (createErrorResponse g 21001 "Brak wymaganych danych kontekstowych")⟩, st)
  else
    (⟨201, .challengeResp (generateChallenge g) g.isoTimestamp⟩, st)

/-- `GET /online/Session/Status`. -/
def sessionStatusH (g : GenCtx) (st : MockState) (tok : Option String) :
    HttpResp × MockState :=
  match sessionLookup st tok with
  | none => (unauthorizedResp g, st)
  | some session =>
    (⟨200, .sessionStatusResp g.isoTimestamp (generateReferenceNumber g 0) 200
        "Sesja aktywna" 0 0 session.createdAtIso⟩, st)

/-- `GET /online/Session/Terminate`: deletes the session when the token is
truthy and present, and unconditionally reports success. -/
def sessionTerminateH (g : GenCtx) (st : MockState) (tok : Option String) :
    HttpResp × MockState :=
  let st' :=
    match tok with
    | none => st
    | some t =>
      if t ≠ "" ∧ (st.sessions.lookup t).isSome then
        { st with sessions := st.sessions.filter (fun p => p.1 ≠ t) }
      else st
  (⟨200, .terminateResp g.isoTimestamp (generateReferenceNumber g 0) 200
      "Sesja zakończona"⟩, st')

/-- `PUT /online/Invoice/Send`: guarded by the session token; stores a new
`processing` invoice under a fresh element reference number. -/
def invoiceSendH (g : GenCtx) (st : MockState) (tok : Option String) :
    HttpResp × MockState :=
  match sessionLookup st tok with
  | none => (unauthorizedResp g, st)
  | some session =>
    let elementReferenceNumber := generateReferenceNumber g 0
    let ksefReferenceNumber := generateKSeFNumber g session.contextNip
    let inv : MockInvoice :=
      { ksefReferenceNumber := ksefReferenceNumber
        sessionToken := (tok.getD "")
        status := "processing"
        createdAtMs := g.nowMs
        createdAtIso := g.isoTimestamp
        invoiceNumber := "INV_" ++ session.contextNip ++ "_" ++ toString g.nowMs }
    (⟨202, .invoiceSentResp g.isoTimestamp (generateReferenceNumber g 1)
        elementReferenceNumber 100 "Faktura została przyjęta do przetwarzania"⟩,
      { st with invoices := st.invoices ++ [(elementReferenceNumber, inv)] })

/-- The lazy age check of the invoice-status route:
`ageMinutes = (now.getTime() - createdAt.getTime()) / (1000 * 60)` compared
with `> 2`, over exact rational arithmetic. -/
def invoiceAgeAccepted (createdAtMs nowMs : Nat) : Bool :=
  decide (((nowMs : ℚ) - (createdAtMs : ℚ)) / (1000 * 60) > 2)

/-- `GET /online/Invoice/Status/:referenceNumber`: session guard, then invoice
lookup, then the lazy time-based `processing → accepted` transition (the store
is mutated when the threshold has passed, as the JS code mutates the stored
object in place). -/
def invoiceStatusH (g : GenCtx) (st : MockState) (tok : Option String)
    (referenceNumber : String) : HttpResp × MockState :=
  match sessionLookup st tok with
  | none => (unauthorizedResp g, st)
  | some _ =>
    match st.invoices.lookup referenceNumber with
    | none => (⟨404, .error (createErrorResponse g 21002 "Nie znaleziono faktury")⟩, st)
    | some inv =>
      let accepted := invoiceAgeAccepted inv.createdAtMs g.nowMs
      let processingCode := if accepted then 200 else 100
      let processingDescription :=
        if accepted then "Faktura została zaakceptowana"
        else "Faktura w trakcie przetwarzania"
      let st' :=
        if accepted then
          { st with invoices := st.invoices.map (fun p =>
              if p.1 = referenceNumber then (p.1, { p.2 with status := "accepted" }) else p) }
        else st
      (⟨200, .invoiceStatusResp g.isoTimestamp (generateReferenceNumber g 0)
          referenceNumber processingCode processingDescription
          (if accepted then
            some { invoiceNumber := inv.invoiceNumber
                   ksefReferenceNumber := inv.ksefReferenceNumber
                   acquisitionTimestamp := inv.createdAtIso }
          else none)⟩, st')

/-- The synthesized invoice XML returned by `GET /online/Invoice/Get/...`;
`issueDate` models `invoice.createdAt.toISOString().split('T')[0]`. -/
def mockInvoiceXml (inv : MockInvoice) : String :=
  let issueDate := String.mk (inv.createdAtIso.toList.takeWhile (fun c => c ≠ 'T'))
  "<?xml version=\x221.0\x22 encoding=\x22UTF-8\x22?>\n<Invoice xmlns=\x22http://crd.gov.pl/wzor/2023/06/29/12648/\x22>\n  <InvoiceHeader>\n    <InvoiceNumber>" ++
  inv.invoiceNumber ++ "</InvoiceNumber>\n    <IssueDate>" ++ issueDate ++
  "</IssueDate>\n    <KSeFReferenceNumber>" ++ inv.ksefReferenceNumber ++
  "</KSeFReferenceNumber>\n  </InvoiceHeader>\n  <Seller>\n    <Name>Test Company</Name>\n    <TaxID>1111111111</TaxID>\n  </Seller>\n  <Buyer>\n    <Name>Test Buyer</Name>\n    <TaxID>2222222222</TaxID>\n  </Buyer>\n  <InvoiceLines>\n    <InvoiceLine>\n      <Description>Mock Service Item</Description>\n      <Quantity>1</Quantity>\n      <UnitPrice>100.00</UnitPrice>\n      <LineTotal>100.00</LineTotal>\n    </InvoiceLine>\n  </InvoiceLines>\n  <Summary>\n    <TotalAmount>123.00</TotalAmount>\n    <TaxAmount>23.00</TaxAmount>\n  </Summary>\n</Invoice>"

/-- `GET /online/Invoice/Get/:ksefReferenceNumber`: session guard, then a
linear scan of the stored invoices by KSeF reference number; returns the
synthesized XML as raw bytes. -/
def invoiceGetH (g : GenCtx) (st : MockState) (tok : Option String)
    (ksefReferenceNumber : String) : HttpResp × MockState :=
  match sessionLookup st tok with
  | none => (unauthorizedResp g, st)
  | some _ =>
    match st.invoices.find? (fun p => p.2.ksefReferenceNumber = ksefReferenceNumber) with
    | none => (⟨404, .error (createErrorResponse g 21002 "Nie znaleziono faktury")⟩, st)
    | some p => (⟨200, .invoiceBytes (stringUtf8Bytes (mockInvoiceXml p.2))⟩, st)

/-- `POST /online/Query/Invoice/Sync`: session guard, then up to
`min(PageSize, 5)` synthesized invoice headers and `hasMoreElements = false`. -/
def queryInvoiceSyncH (g : GenCtx) (st : MockState) (tok : Option String)
    (pageSize pageOffset : Nat) : HttpResp × MockState :=
  match sessionLookup st tok with
  | none => (unauthorizedResp g, st)
  | some session =>
    let list := (List.range (min pageSize 5)).map (fun i =>
      { invoiceNumber := "INV_" ++ session.contextNip ++ "_" ++ toString (g.nowMs + i)
        ksefReferenceNumber := generateKSeFNumber g session.contextNip
        acquisitionTimestamp := g.refNum (100 + i)
        invoiceType := "VAT"
        subjectType := "subject1" : InvoiceHeader })
    (⟨200, .queryResp g.isoTimestamp (generateReferenceNumber g 0) list
        list.length pageSize pageOffset false⟩, st)

/-- `POST /online/Credentials/GenerateToken`: session guard, then a fresh
hex credential token. -/
def credentialsGenerateTokenH (g : GenCtx) (st : MockState) (tok : Option String) :
    HttpResp × MockState :=
  match sessionLookup st tok with
  | none => (unauthorizedResp g, st)
  | some _ =>
    (⟨200, .credentialTokenResp g.isoTimestamp (generateReferenceNumber g 1)
        g.credTokenHex (generateReferenceNumber g 0)⟩, st)

/-! ## Real-gateway routes (`src/routes/ksef.ts`)

The outbound HTTP call is not performed; each route model returns either the
validation failure it would answer with, or a description of the upstream
request it would issue (URL, content type, and the exact bytes axios would
put on the wire — a string body is transmitted UTF-8-encoded).  `gunzip`
models `zlib.gunzipSync` as an oracle (`none` = the library call throws). -/

/-- Outcome of `POST /init-session-signed`. -/
inductive InitSignedOutcome
  | badRequest (error : String)
  | forward (url : String) (bodyBytes : List Nat)
deriving DecidableEq, Repr

/-- The bytes axios puts on the wire for a JS string obtained from a byte
buffer via `buffer.toString('utf-8')`. -/
def textWireBytes (bytes : List Nat) : List Nat :=
  utf8EncodeCps (utf8DecodeReplace bytes)

/-- `POST /init-session-signed`: decodes `signedXmlBase64` (gunzipping first
when `compressed`), converts to a string, and forwards it octet-stream to
`(getKsefUrl env)/api/online/Session/InitSigned`; falls back to an uploaded
file when `signedXmlBase64` is falsy. -/
def initSessionSigned (ksefApiUrl : Option String) (gunzip : List Nat → Option (List Nat))
    (signedXmlBase64 : Option String) (file : Option (List Nat))
    (environment : Option String) (compressed : Bool) : InitSignedOutcome :=
  let url := getKsefUrl ksefApiUrl environment ++ "/api/online/Session/InitSigned"
  if jsTruthy signedXmlBase64 then
    let decoded := nodeBase64Decode (signedXmlBase64.getD "")
    if compressed then
      match gunzip decoded with
      | some xs => .forward url (textWireBytes xs)
      | none => .badRequest "Invalid compressed base64 encoded XML"
    else .forward url (textWireBytes decoded)
  else
    match file with
    | some buf => .forward url (textWireBytes buf)
    | none => .badRequest "No signed XML provided. Use signedXmlBase64 field with base64 encoded XML"

/-- Outcome of `POST /send-invoice`. -/
inductive SendInvoiceOutcome
  | badRequest (error : String)
  | forward (url : String) (contentTypeHeader : String) (bodyBytes : List Nat)
deriving DecidableEq, Repr

/-- `POST /send-invoice`: field checks, then the `contentType` whitelist
check, then base64 decode and per-kind conversion, then the upstream POST to
`(getKsefUrl env)/api/online/Invoice/Send`. -/
def sendInvoice (ksefApiUrl : Option String) (gunzip : List Nat → Option (List Nat))
    (sessionToken : Option String) (invoiceXmlBase64 : Option String)
    (environment : Option String) (contentType : String) : SendInvoiceOutcome :=
  if !jsTruthy sessionToken || !jsTruthy invoiceXmlBase64 then
    .badRequest "Missing required fields: sessionToken and invoiceXmlBase64"
  else if !(contentType = "xml" || contentType = "gzip" || contentType = "zip") then
    .badRequest "Invalid contentType. Must be one of: xml, gzip, zip"
  else
    let url := getKsefUrl ksefApiUrl environment ++ "/api/online/Invoice/Send"
    let decoded := nodeBase64Decode (invoiceXmlBase64.getD "")
    if contentType = "zip" then
      .forward url "application/zip" decoded
    else if contentType = "gzip" then
      match gunzip decoded with
      | some xs => .forward url "application/xml" (textWireBytes xs)
      | none => .badRequest "Invalid base64 encoded gzip content"
    else
      .forward url "application/xml" (textWireBytes decoded)

/-! ## Token-based session initialisation (`POST /init-session-token`) -/

/-- The steps of the token-init orchestration, in source order. -/
inductive KStep
  | challengeStep
  | publicKeyStep
  | encryptStep
  | postStep
deriving DecidableEq, Repr

/-- Oracles for the effectful steps of `/init-session-token`: the challenge
request, the public-key fetch, `crypto.publicEncrypt` with
`RSA_PKCS1_PADDING` (plaintext bytes to ciphertext bytes), and the upstream
POST of the rendered XML.  `Except.error` models a thrown/rejected step. -/
structure InitTokenOracle (E R : Type) where
  challengeResult : Except E (String × String)
  publicKeyResult : Except E String
  rsaEncrypt : String → List Nat → Except E (List Nat)
  postResult : String → Except E R

/-- The token string of step (c): ``timestamp|authToken``. -/
def tokenPlaintext (timestamp authToken : String) : String :=
  timestamp ++ "|" ++ authToken

/-- The `InitSessionTokenRequest` XML template of `/init-session-token`,
embedding the challenge, the NIP identifier, the fixed document-type
descriptor and the encrypted token. -/
def initTokenXml (challenge nip encryptedToken : String) : String :=
  "<?xml version=\x221.0\x22 encoding=\x22UTF-8\x22 standalone=\x22yes\x22?>\n<ns3:InitSessionTokenRequest xmlns=\x22http://ksef.mf.gov.pl/schema/gtw/svc/online/types/2021/10/01/0001\x22 xmlns:ns2=\x22http://ksef.mf.gov.pl/schema/gtw/svc/types/2021/10/01/0001\x22 xmlns:ns3=\x22http://ksef.mf.gov.pl/schema/gtw/svc/online/auth/request/2021/10/01/0001\x22>\n  <ns3:Context>\n    <Challenge>" ++
  challenge ++
  "</Challenge>\n    <Identifier xmlns:xsi=\x22http://www.w3.org/2001/XMLSchema-instance\x22 xsi:type=\x22ns2:SubjectIdentifierByCompanyType\x22>\n      <ns2:Identifier>" ++
  nip ++
  "</ns2:Identifier>\n    </Identifier>\n    <DocumentType>\n      <ns2:Service>KSeF</ns2:Service>\n      <ns2:FormCode>\n        <ns2:SystemCode>FA (2)</ns2:SystemCode>\n        <ns2:SchemaVersion>1-0E</ns2:SchemaVersion>\n        <ns2:TargetNamespace>http://crd.gov.pl/wzor/2023/06/29/12648/</ns2:TargetNamespace>\n        <ns2:Value>FA</ns2:Value>\n      </ns2:FormCode>\n    </DocumentType>\n    <Token>" ++
  encryptedToken ++
  "</Token>\n  </ns3:Context>\n</ns3:InitSessionTokenRequest>"

/-- Result of `/init-session-token` towards the caller. -/
inductive InitTokenResult (E R : Type)
  | badRequest (error : String)
  | failed (e : E)
  | ok (r : R)

/-- `POST /init-session-token`: after the field check, performs, in order,
(a) the challenge request, (b) the public-key fetch, (c) building
``timestamp|authToken``, (d) RSA-PKCS1 encryption of its UTF-8 bytes,
(e) base64-encoding the ciphertext, (f) rendering the XML, (g) the upstream
POST.  The first failing step aborts (the single `try` block rethrows to one
`catch`); the returned trace lists the effectful steps that were started. -/
def initSessionToken {E R : Type} (o : InitTokenOracle E R) (nip authToken : Option String) :
    InitTokenResult E R × List KStep :=
  if !jsTruthy nip || !jsTruthy authToken then
    (.badRequest "Missing required fields: nip and authToken", [])
  else
    match o.challengeResult with
    | .error e => (.failed e, [.challengeStep])
    | .ok (challenge, timestamp) =>
      match o.publicKeyResult with
      | .error e => (.failed e, [.challengeStep, .publicKeyStep])
      | .ok publicKey =>
        match o.rsaEncrypt publicKey
            (stringUtf8Bytes (tokenPlaintext timestamp (authToken.getD ""))) with
        | .error e => (.failed e, [.challengeStep, .publicKeyStep, .encryptStep])
        | .ok cipher =>
          let encryptedToken := String.mk (base64EncodeBytes cipher)
          let xmlToSend := initTokenXml challenge (nip.getD "") encryptedToken
          match o.postResult xmlToSend with
          | .error e =>
            (.failed e, [.challengeStep, .publicKeyStep, .encryptStep, .postStep])
          | .ok r => (.ok r, [.challengeStep, .publicKeyStep, .encryptStep, .postStep])

/-! ## Challenge pattern

A decidable rendering of the regex
`^\d{8}-CR-[0-9A-F]{10}-[0-9A-F]{10}-[0-9A-F]{2}$` as a chain of consumers
over the character list. -/

/-- Consume exactly `n` characters satisfying `p`, returning the rest. -/
def consumeCount (p : Char → Bool) : Nat → List Char → Option (List Char)
  | 0, cs => some cs
  | _ + 1, [] => none
  | n + 1, c :: cs => if p c then consumeCount p n cs else none

/-- Consume an exact literal character sequence, returning the rest. -/
def consumeLit : List Char → List Char → Option (List Char)
  | [], cs => some cs
  | _ :: _, [] => none
  | l :: ls, c :: cs => if c = l then consumeLit ls cs else none

/-- Uppercase hexadecimal digit (`[0-9A-F]`). -/
def isUpperHexDigit (c : Char) : Bool :=
  c.isDigit || ('A' ≤ c && c ≤ 'F')

/-- The challenge regex `^\d{8}-CR-[0-9A-F]{10}-[0-9A-F]{10}-[0-9A-F]{2}$`. -/
def challengePattern (s : String) : Bool :=
  (do
    let r1 ← consumeCount Char.isDigit 8 s.toList
    let r2 ← consumeLit ['-', 'C', 'R', '-'] r1
    let r3 ← consumeCount isUpperHexDigit 10 r2
    let r4 ← consumeLit ['-'] r3
    let r5 ← consumeCount isUpperHexDigit 10 r4
    let r6 ← consumeLit ['-'] r5
    let r7 ← consumeCount isUpperHexDigit 2 r6
    if r7.isEmpty then some () else none).isSome

/-! ## Encoding lemmas -/

/-- The base64 alphabet maps are mutually inverse on sextets. -/
theorem b64CharVal_encTable : ∀ s, s < 64 → b64CharVal (b64EncTable s) = some s := by
  decide

/-- Padding characters are skipped by the decoder. -/
theorem b64CharVal_pad : b64CharVal '=' = none := by
  decide

/-- Node's forgiving base64 decoding is a left inverse of base64 encoding on
byte lists. -/
theorem nodeB64_roundtrip : ∀ (b : List Nat), (∀ x ∈ b, x < 256) →
    b64DecodeSextets ((base64EncodeBytes b).filterMap b64CharVal) = b
  | [], _ => rfl
  | [b1], h => by
    have h1 : b1 < 256 := h b1 (by simp)
    have e1 := b64CharVal_encTable (b1 / 4) (by omega)
    have e2 := b64CharVal_encTable (b1 % 4 * 16) (by omega)
    simp [base64EncodeBytes, List.filterMap_cons, e1, e2, b64CharVal_pad, b64DecodeSextets]
    omega
  | [b1, b2], h => by
    have h1 : b1 < 256 := h b1 (by simp)
    have h2 : b2 < 256 := h b2 (by simp)
    have e1 := b64CharVal_encTable (b1 / 4) (by omega)
    have e2 := b64CharVal_encTable (b1 % 4 * 16 + b2 / 16) (by omega)
    have e3 := b64CharVal_encTable (b2 % 16 * 4) (by omega)
    simp [base64EncodeBytes, List.filterMap_cons, e1, e2, e3, b64CharVal_pad, b64DecodeSextets]
    omega
  | b1 :: b2 :: b3 :: rest, h => by
    have h1 : b1 < 256 := h b1 (by simp)
    have h2 : b2 < 256 := h b2 (by simp)
    have h3 : b3 < 256 := h b3 (by simp)
    have e1 := b64CharVal_encTable (b1 / 4) (by omega)
    have e2 := b64CharVal_encTable (b1 % 4 * 16 + b2 / 16) (by omega)
    have e3 := b64CharVal_encTable (b2 % 16 * 4 + b3 / 64) (by omega)
    have e4 := b64CharVal_encTable (b3 % 64) (by omega)
    have ih := nodeB64_roundtrip rest (fun x hx => h x (by simp [hx]))
    simp [base64EncodeBytes, List.filterMap_cons, e1, e2, e3, e4, b64DecodeSextets, ih]
    omega

/-- Decoding an encoded ASCII code point. -/
theorem utf8_de_one (c : Nat) (h1 : c < 0x80) (r : List Nat) :
    utf8DecodeReplace (utf8EncodeCp c ++ r) = c :: utf8DecodeReplace r := by
  unfold utf8EncodeCp
  rw [if_pos h1]
  simp only [List.cons_append, List.nil_append]
  rw [utf8DecodeReplace.eq_def]
  simp only
  rw [if_pos h1]

set_option maxRecDepth 4096 in
/-- Decoding an encoded two-byte code point. -/
theorem utf8_de_two (c : Nat) (h1 : 0x80 ≤ c) (h2 : c < 0x800) (r : List Nat) :
    utf8DecodeReplace (utf8EncodeCp c ++ r) = c :: utf8DecodeReplace r := by
  unfold utf8EncodeCp
  rw [if_neg (by omega), if_pos h2]
  simp only [List.cons_append, List.nil_append]
  rw [utf8DecodeReplace.eq_def]
  simp only
  rw [if_neg (by omega), if_neg (by omega), if_pos (by omega),
      if_pos (by constructor <;> (simp only [utf8Lo2, utf8Hi2]; split_ifs <;> omega))]
  congr 1
  omega

set_option maxRecDepth 8192 in
/-- Decoding an encoded three-byte code point (not a surrogate). -/
theorem utf8_de_three (c : Nat) (h1 : 0x800 ≤ c) (h2 : c < 0x10000)
    (h3 : ¬(0xD800 ≤ c ∧ c ≤ 0xDFFF)) (r : List Nat) :
    utf8DecodeReplace (utf8EncodeCp c ++ r) = c :: utf8DecodeReplace r := by
  unfold utf8EncodeCp
  rw [if_neg (by omega), if_neg (by omega), if_pos h2]
  simp only [List.cons_append, List.nil_append]
  rw [utf8DecodeReplace.eq_def]
  simp only
  rw [if_neg (by omega), if_neg (by omega), if_neg (by omega), if_pos (by omega),
      if_pos (by constructor <;> (simp only [utf8Lo2, utf8Hi2]; split_ifs <;> omega)),
      if_pos (by simp only [utf8Cont, Bool.and_eq_true, decide_eq_true_eq]; omega)]
  congr 1
  omega

set_option maxRecDepth 8192 in
/-- Decoding an encoded four-byte code point. -/
theorem utf8_de_four (c : Nat) (h1 : 0x10000 ≤ c) (h2 : c < 0x110000) (r : List Nat) :
    utf8DecodeReplace (utf8EncodeCp c ++ r) = c :: utf8DecodeReplace r := by
  unfold utf8EncodeCp
  rw [if_neg (by omega), if_neg (by omega), if_neg (by omega)]
  simp only [List.cons_append, List.nil_append]
  rw [utf8DecodeReplace.eq_def]
  simp only
  rw [if_neg (by omega), if_neg (by omega), if_neg (by omega), if_neg (by omega),
      if_pos (by constructor <;> (simp only [utf8Lo2, utf8Hi2]; split_ifs <;> omega)),
      if_pos (by simp only [utf8Cont, Bool.and_eq_true, decide_eq_true_eq]; omega),
      if_pos (by simp only [utf8Cont, Bool.and_eq_true, decide_eq_true_eq]; omega)]
  congr 1
  omega

/-- Decoding an encoded scalar code point peels it off unchanged. -/
theorem utf8DecodeReplace_encodeCp (c : Nat) (hc : IsScalar c) (r : List Nat) :
    utf8DecodeReplace (utf8EncodeCp c ++ r) = c :: utf8DecodeReplace r := by
  obtain ⟨hlt, hsur⟩ := hc
  by_cases h1 : c < 0x80
  · exact utf8_de_one c h1 r
  · by_cases h2 : c < 0x800
    · exact utf8_de_two c (by omega) h2 r
    · by_cases h3 : c < 0x10000
      · exact utf8_de_three c (by omega) h3 hsur r
      · exact utf8_de_four c (by omega) hlt r

/-- WHATWG decoding is a left inverse of UTF-8 encoding on scalar values. -/
theorem utf8_decode_encode (cs : List Nat) (h : ∀ c ∈ cs, IsScalar c) :
    utf8DecodeReplace (utf8EncodeCps cs) = cs := by
  induction cs with
  | nil => rfl
  | cons c cs ih =>
    have hc : IsScalar c := h c (by simp)
    rw [utf8EncodeCps, List.flatMap_cons, ← utf8EncodeCps,
        utf8DecodeReplace_encodeCp c hc, ih (fun x hx => h x (by simp [hx]))]

/-! ## Concrete fixtures for witnesses and counterexamples -/

/-- A concrete generation oracle. -/
def gExample : GenCtx :=
  { nowMs := 0
    isoTimestamp := "2026-01-01T00:00:00.000Z"
    dateStr := "20260101"
    chalHexA := "0123456789"
    chalHexB := "ABCDEF0123"
    chalHexC := "4D"
    refNum := fun n => "REF" ++ toString n
    ksefHex := "0123456789AB"
    sessionTokenGen := "generated-token"
    credTokenHex := "deadbeefdeadbeefdeadbeefdeadbeef" }

/-- The same oracle with the clock at 120000 ms (exactly two minutes). -/
def gAt (ms : Nat) : GenCtx :=
  { gExample with nowMs := ms }

/-- A concrete stored session. -/
def sessExample : MockSession :=
  { createdAtMs := 0
    createdAtIso := "2026-01-01T00:00:00.000Z"
    referenceNumber := "REFS"
    contextNip := "1111111111"
    status := "active" }

/-- A concrete stored invoice, created at time 0. -/
def invExample : MockInvoice :=
  { ksefReferenceNumber := "1111111111-20260101-012345-6789AB-"
    sessionToken := "tok1"
    status := "processing"
    createdAtMs := 0
    createdAtIso := "2026-01-01T00:00:00.000Z"
    invoiceNumber := "INV_1111111111_0" }

/-- A concrete mock state with one session and one invoice. -/
def stExample : MockState :=
  { sessions := [("tok1", sessExample)]
    invoices := [("inv1", invExample)] }

/-! ## Claim C1 — mode-switch default -/

/-- Claim C1, as stated, is false: in a process environment with
`USE_MOCK_KSEF`, `USE_REAL_KSEF` (and everything else) unset,
`getKSeFConfig` returns `useMock = false`, i.e. real mode, not mock mode. -/
theorem c1_counterexample :
    (getKSeFConfig ⟨none, none, none, none, none, none⟩).useMock = false := by
  rfl

/-- C1 (amended): with no explicit override (`USE_MOCK_KSEF` unset,
`USE_REAL_KSEF` unset), the mode switch selects the mock exactly when
`NODE_ENV = development`; outside development the default is real mode. -/
theorem c1_default_mode_amended (env : ProcessEnv)
    (hm : env.USE_MOCK_KSEF = none) (_hr : env.USE_REAL_KSEF = none) :
    (getKSeFConfig env).useMock = true ↔ env.NODE_ENV = some "development" := by
  simp [getKSeFConfig, hm]

/-- Witness for C1: the amended statement at a concrete development
environment. -/
theorem c1_default_mode_amended_witness :
    (getKSeFConfig ⟨none, none, some "development", none, none, none⟩).useMock = true ↔
      (⟨none, none, some "development", none, none, none⟩ : ProcessEnv).NODE_ENV =
        some "development" :=
  c1_default_mode_amended ⟨none, none, some "development", none, none, none⟩ rfl rfl

/-! ## Claim C6 — environment resolution -/

/-- Claim C6, as stated, is false: for the name `production` (case-insensitively
equal to itself) the resolver does not return the production base URL — the
lookup table only has the key `prod`, so `production` falls through to the
default, which is the test endpoint. -/
theorem c6_counterexample :
    getKsefUrl none (some "production") = "https://ksef-test.mf.gov.pl" ∧
      "https://ksef-test.mf.gov.pl" ≠ "https://ksef.mf.gov.pl" := by
  constructor
  · rfl
  · decide

/-- C6 (amended): names case-insensitively equal to `test`, `demo` or `prod`
resolve to that environment's base URL; every other name (including
`production`) and an absent name fall back to `KSEF_API_URL` when set and
nonempty, else to the test endpoint. -/
theorem c6_env_resolution_amended (api : Option String) (e : String) :
    (asciiLower e = "test" → getKsefUrl api (some e) = "https://ksef-test.mf.gov.pl") ∧
    (asciiLower e = "demo" → getKsefUrl api (some e) = "https://ksef-demo.mf.gov.pl") ∧
    (asciiLower e = "prod" → getKsefUrl api (some e) = "https://ksef.mf.gov.pl") ∧
    (KSEF_ENVIRONMENTS_ROUTES (asciiLower e) = none →
      getKsefUrl api (some e) = jsOr api "https://ksef-test.mf.gov.pl") ∧
    getKsefUrl api none = jsOr api "https://ksef-test.mf.gov.pl" := by
  refine ⟨fun h => ?_, fun h => ?_, fun h => ?_, fun h => ?_, ?_⟩
  · simp only [getKsefUrl, h]; rfl
  · simp only [getKsefUrl, h]; rfl
  · simp only [getKsefUrl, h]; rfl
  · simp only [getKsefUrl]; rw [h]
  · rfl

/-- Witness for C6: uppercase `PROD` resolves to the production URL and an
unknown name falls back to the `KSEF_API_URL` override. -/
theorem c6_env_resolution_amended_witness :
    getKsefUrl none (some "PROD") = "https://ksef.mf.gov.pl" ∧
      getKsefUrl (some "http://other") (some "staging") =
        jsOr (some "http://other") "https://ksef-test.mf.gov.pl" :=
  ⟨(c6_env_resolution_amended none "PROD").2.2.1 (by decide),
   (c6_env_resolution_amended (some "http://other") "staging").2.2.2.1 (by decide)⟩

/-! ## Claim C4 — unknown tokens are rejected everywhere -/

/-- The session guard fails for a missing token and for any token not in the
store. -/
theorem sessionLookup_none (st : MockState) (tok : Option String)
    (hn : ∀ t, tok = some t → st.sessions.lookup t = none) :
    sessionLookup st tok = none := by
  cases tok with
  | none => rfl
  | some t =>
    have h := hn t rfl
    simp [sessionLookup, h]

/-- C4: every mock operation requiring a session, called with a session token
that is absent from the store (or with no token at all), answers HTTP 401
with the error envelope whose single detail carries exceptionCode 21003, and
leaves the session and invoice stores unchanged. -/
theorem c4_unknown_token_rejected (g : GenCtx) (st : MockState) (tok : Option String)
    (hn : ∀ t, tok = some t → st.sessions.lookup t = none) :
    sessionStatusH g st tok = (unauthorizedResp g, st) ∧
    invoiceSendH g st tok = (unauthorizedResp g, st) ∧
    (∀ ref, invoiceStatusH g st tok ref = (unauthorizedResp g, st)) ∧
    (∀ ref, invoiceGetH g st tok ref = (unauthorizedResp g, st)) ∧
    (∀ ps po, queryInvoiceSyncH g st tok ps po = (unauthorizedResp g, st)) ∧
    credentialsGenerateTokenH g st tok = (unauthorizedResp g, st) ∧
    (unauthorizedResp g).status = 401 ∧
    (unauthorizedResp g).body = .error (createErrorResponse g 21003 "Nieautoryzowany dostęp") ∧
    (createErrorResponse g 21003 "Nieautoryzowany dostęp").exceptionDetailList.map
      (fun d => d.exceptionCode) = [21003] := by
  have hl := sessionLookup_none st tok hn
  refine ⟨?_, ?_, fun ref => ?_, fun ref => ?_, fun ps po => ?_, ?_, rfl, rfl, rfl⟩ <;>
    simp [sessionStatusH, invoiceSendH, invoiceStatusH, invoiceGetH,
      queryInvoiceSyncH, credentialsGenerateTokenH, hl]

/-- Witness for C4: a token absent from the concrete store is rejected by the
session-status endpoint. -/
theorem c4_unknown_token_rejected_witness :
    sessionStatusH gExample stExample (some "unknown") = (unauthorizedResp gExample, stExample) :=
  (c4_unknown_token_rejected gExample stExample (some "unknown")
    (fun t ht => by injection ht with h; subst h; rfl)).1

/-! ## Claim C10 — session check precedes invoice lookup -/

/-- C10: for a session token not in the store, `InvoiceStatus` and
`GetInvoice` answer 401 with exceptionCode 21003 — never 21002 — regardless
of whether the referenced invoice exists (the state, including any absent
invoice, is arbitrary here), and the stores are unchanged. -/
theorem c10_session_check_first (g : GenCtx) (st : MockState) (tok : Option String)
    (hn : ∀ t, tok = some t → st.sessions.lookup t = none) (ref : String) :
    invoiceStatusH g st tok ref = (unauthorizedResp g, st) ∧
    invoiceGetH g st tok ref = (unauthorizedResp g, st) ∧
    (unauthorizedResp g).status = 401 ∧
    (createErrorResponse g 21003 "Nieautoryzowany dostęp").exceptionDetailList.map
      (fun d => d.exceptionCode) = [21003] ∧
    (21003 : Nat) ≠ 21002 := by
  have hl := sessionLookup_none st tok hn
  refine ⟨?_, ?_, rfl, rfl, by decide⟩ <;> simp [invoiceStatusH, invoiceGetH, hl]

/-- Witness for C10: the concrete store has no invoice named `missing` and no
session `unknown`; the status endpoint still answers 21003, not 21002. -/
theorem c10_session_check_first_witness :
    invoiceStatusH gExample stExample (some "unknown") "missing" =
      (unauthorizedResp gExample, stExample) :=
  (c10_session_check_first gExample stExample (some "unknown")
    (fun t ht => by injection ht with h; subst h; rfl) "missing").1

/-! ## Claim C9 — TerminateSession is idempotent -/

/-- Looking up a key after filtering out exactly that key yields nothing. -/
theorem lookup_filter_self (l : List (String × MockSession)) (t : String) :
    (l.filter (fun p => p.1 ≠ t)).lookup t = none := by
  induction l with
  | nil => rfl
  | cons p l ih =>
    rw [List.filter_cons]
    by_cases h : p.1 = t
    · rw [if_neg (by simp [h])]
      exact ih
    · rw [if_pos (by simp [h])]
      cases p with
      | mk k v =>
        simp only [List.lookup]
        have hbe : (t == k) = false := by
          simp only [beq_eq_false_iff_ne, ne_eq]
          intro hh
          exact h (by simp [hh])
        rw [hbe]
        exact ih

/-- C9: `TerminateSession` always reports success (whether or not the token is
stored), afterwards the token is absent from the session store, and a second
call with the same now-unknown token again reports success and leaves the
state unchanged.  The hypothesis that the store has no entry under the empty
string holds for every reachable store, since stored keys are generated
44-character tokens. -/
theorem c9_terminate_idempotent (g g2 : GenCtx) (st : MockState) (tok : Option String)
    (hemp : st.sessions.lookup "" = none) :
    (sessionTerminateH g st tok).1 =
      ⟨200, .terminateResp g.isoTimestamp (generateReferenceNumber g 0) 200
        "Sesja zakończona"⟩ ∧
    (∀ t, tok = some t → ((sessionTerminateH g st tok).2.sessions.lookup t = none)) ∧
    (sessionTerminateH g2 (sessionTerminateH g st tok).2 tok).1 =
      ⟨200, .terminateResp g2.isoTimestamp (generateReferenceNumber g2 0) 200
        "Sesja zakończona"⟩ ∧
    (sessionTerminateH g2 (sessionTerminateH g st tok).2 tok).2 =
      (sessionTerminateH g st tok).2 := by
  cases tok with
  | none =>
    refine ⟨rfl, ?_, rfl, rfl⟩
    intro t ht
    exact absurd ht (by simp)
  | some t =>
    by_cases he : t = ""
    · subst he
      have h2 : (sessionTerminateH g st (some "")).2 = st := by
        simp [sessionTerminateH]
      refine ⟨rfl, ?_, rfl, ?_⟩
      · intro u hu
        injection hu with hu
        subst hu
        rw [h2]
        exact hemp
      · rw [h2]
        simp [sessionTerminateH]
    · by_cases hs : (st.sessions.lookup t).isSome
      · have h2 : (sessionTerminateH g st (some t)).2 =
            { st with sessions := st.sessions.filter (fun p => p.1 ≠ t) } := by
          simp [sessionTerminateH, he, hs]
        have hfil := lookup_filter_self st.sessions t
        refine ⟨rfl, ?_, rfl, ?_⟩
        · intro u hu
          injection hu with hu
          subst hu
          rw [h2]
          exact hfil
        · rw [h2]
          simp [sessionTerminateH, hfil]
      · have ht : st.sessions.lookup t = none := by
          cases hq : st.sessions.lookup t with
          | none => rfl
          | some v => rw [hq] at hs; simp at hs
        have h2 : (sessionTerminateH g st (some t)).2 = st := by
          simp [sessionTerminateH, ht]
        refine ⟨rfl, ?_, rfl, ?_⟩
        · intro u hu
          injection hu with hu
          subst hu
          rw [h2]
          exact ht
        · rw [h2]
          simp [sessionTerminateH, ht]

/-- Witness for C9: terminating a stored token on the concrete store. -/
theorem c9_terminate_idempotent_witness :
    (sessionTerminateH gExample stExample (some "tok1")).1 =
      ⟨200, .terminateResp gExample.isoTimestamp (generateReferenceNumber gExample 0) 200
        "Sesja zakończona"⟩ :=
  (c9_terminate_idempotent gExample gExample stExample (some "tok1") rfl).1

/-! ## Claim C5 — AuthorisationChallenge contract -/

/-- Consuming a block of satisfying characters succeeds and leaves the rest. -/
theorem consumeCount_append (p : Char → Bool) (n : Nat) (l r : List Char)
    (hn : l.length = n) (hl : l.all p = true) :
    consumeCount p n (l ++ r) = some r := by
  subst hn
  induction l with
  | nil => rfl
  | cons c l ih =>
    rw [List.all_cons, Bool.and_eq_true] at hl
    simp only [List.length_cons, List.cons_append, consumeCount]
    rw [if_pos hl.1]
    exact ih hl.2

/-- Consuming an exact literal succeeds and leaves the rest. -/
theorem consumeLit_append (l r : List Char) : consumeLit l (l ++ r) = some r := by
  induction l with
  | nil => rfl
  | cons c l ih =>
    simp only [List.cons_append, consumeLit, if_true]
    exact ih

/-- Well-formedness of the generation oracle: the date string is eight digits
and the challenge segments are uppercase hex of lengths 10, 10 and 2 — true of
the real generator, which draws them from `toISOString` and `randomHex`. -/
def GoodChallengeCtx (g : GenCtx) : Prop :=
  g.dateStr.toList.length = 8 ∧ g.dateStr.toList.all Char.isDigit = true ∧
  g.chalHexA.toList.length = 10 ∧ g.chalHexA.toList.all isUpperHexDigit = true ∧
  g.chalHexB.toList.length = 10 ∧ g.chalHexB.toList.all isUpperHexDigit = true ∧
  g.chalHexC.toList.length = 2 ∧ g.chalHexC.toList.all isUpperHexDigit = true

instance (g : GenCtx) : Decidable (GoodChallengeCtx g) := by
  unfold GoodChallengeCtx
  infer_instance

/-- A well-formed oracle produces a challenge matching the documented regex. -/
theorem challengePattern_generateChallenge (g : GenCtx) (hg : GoodChallengeCtx g) :
    challengePattern (generateChallenge g) = true := by
  obtain ⟨h1, h2, h3, h4, h5, h6, h7, h8⟩ := hg
  have hsplit : (generateChallenge g).toList =
      g.dateStr.toList ++ (['-', 'C', 'R', '-'] ++ (g.chalHexA.toList ++
        (['-'] ++ (g.chalHexB.toList ++ (['-'] ++ (g.chalHexC.toList ++ [])))))) := by
    simp [generateChallenge, String.toList, String.data_append]
  unfold challengePattern
  rw [hsplit]
  rw [consumeCount_append Char.isDigit 8 g.dateStr.toList _ h1 h2]
  simp only [Option.bind_eq_bind, Option.some_bind]
  rw [consumeLit_append]
  simp only [Option.some_bind]
  rw [consumeCount_append isUpperHexDigit 10 g.chalHexA.toList _ h3 h4]
  simp only [Option.some_bind]
  rw [consumeLit_append]
  simp only [Option.some_bind]
  rw [consumeCount_append isUpperHexDigit 10 g.chalHexB.toList _ h5 h6]
  simp only [Option.some_bind]
  rw [consumeLit_append]
  simp only [Option.some_bind]
  rw [consumeCount_append isUpperHexDigit 2 g.chalHexC.toList _ h7 h8]
  simp

/-- Claim C5, as stated, is false: a request whose `contextIdentifier`
contains both fields, with `type` present but empty, is answered with
HTTP 400 and exceptionCode 21001, not with HTTP 201. -/
theorem c5_counterexample :
    authorisationChallengeH gExample stExample (some ⟨some "", some "1111111111"⟩) =
      (⟨400, .error (createErrorResponse gExample 21001
        "Brak wymaganych danych kontekstowych")⟩, stExample) ∧
    (400 : Nat) ≠ 201 := by
  constructor
  · rfl
  · decide

/-- C5 (amended): when `contextIdentifier` carries both `type` and
`identifier` as nonempty strings, the mock answers HTTP 201 with the
timestamp and a challenge matching the pattern of eight digits, `-CR-`, and
dash-separated uppercase-hex blocks of lengths 10, 10 and 2; when either
field is missing or empty (or the whole object is absent) it answers HTTP 400
with exceptionCode 21001.  The store is untouched either way. -/
theorem c5_challenge_contract (g : GenCtx) (st : MockState) (hg : GoodChallengeCtx g) :
    (∀ ty ident, ty ≠ "" → ident ≠ "" →
      authorisationChallengeH g st (some ⟨some ty, some ident⟩) =
        (⟨201, .challengeResp (generateChallenge g) g.isoTimestamp⟩, st) ∧
      challengePattern (generateChallenge g) = true) ∧
    (∀ ci, (ci = none ∨ ∃ c, ci = some c ∧ (¬jsTruthy c.type ∨ ¬jsTruthy c.identifier)) →
      authorisationChallengeH g st ci =
        (⟨400, .error (createErrorResponse g 21001 "Brak wymaganych danych kontekstowych")⟩,
          st)) := by
  constructor
  · intro ty ident hty hident
    refine ⟨?_, challengePattern_generateChallenge g hg⟩
    simp [authorisationChallengeH, jsTruthy, hty, hident]
  · intro ci hci
    rcases hci with rfl | ⟨c, rfl, hbad⟩
    · rfl
    · rcases hbad with hb | hb <;>
        simp [authorisationChallengeH, hb]

/-- Witness for C5: the concrete scenario from the spec — type `onip`,
identifier `1111111111` — succeeds with a pattern-matching challenge, and a
request missing the identifier fails with the 21001 envelope. -/
theorem c5_challenge_contract_witness :
    (authorisationChallengeH gExample stExample (some ⟨some "onip", some "1111111111"⟩) =
      (⟨201, .challengeResp (generateChallenge gExample) gExample.isoTimestamp⟩, stExample) ∧
      challengePattern (generateChallenge gExample) = true) ∧
    authorisationChallengeH gExample stExample (some ⟨some "onip", none⟩) =
      (⟨400, .error (createErrorResponse gExample 21001
        "Brak wymaganych danych kontekstowych")⟩, stExample) :=
  ⟨(c5_challenge_contract gExample stExample (by decide)).1 "onip" "1111111111"
      (by decide) (by decide),
   (c5_challenge_contract gExample stExample (by decide)).2 (some ⟨some "onip", none⟩)
      (Or.inr ⟨⟨some "onip", none⟩, rfl, Or.inr (by decide)⟩)⟩

/-! ## Claim C3 — invoice status is monotonic and time-gated -/

/-- The float comparison `ageMinutes > 2` of the source holds exactly when
strictly more than 120000 ms have elapsed. -/
theorem invoiceAgeAccepted_iff (created now : Nat) :
    invoiceAgeAccepted created now = true ↔ created + 120000 < now := by
  unfold invoiceAgeAccepted
  rw [decide_eq_true_iff, gt_iff_lt, lt_div_iff₀ (by norm_num : (0:ℚ) < 1000 * 60),
      lt_sub_iff_add_lt]
  rw [show (2 : ℚ) * (1000 * 60) = ((120000 : ℕ) : ℚ) by norm_num]
  rw [← Nat.cast_add, Nat.cast_lt]
  omega

/-- A status read that reports the invoice accepted: HTTP 200,
processingCode 200, the acceptance description and a populated
`invoiceStatus` object. -/
def reportsAccepted (r : HttpResp) : Prop :=
  ∃ ts rn ref det, r =
    ⟨200, .invoiceStatusResp ts rn ref 200 "Faktura została zaakceptowana" (some det)⟩

/-- A status read that reports the invoice still processing: HTTP 200,
processingCode 100 and no `invoiceStatus` object. -/
def reportsProcessing (r : HttpResp) : Prop :=
  ∃ ts rn ref, r =
    ⟨200, .invoiceStatusResp ts rn ref 100 "Faktura w trakcie przetwarzania" none⟩

/-- Evaluation of the invoice-status route on a valid session and a stored
invoice: the response and the state update in both branches of the lazy
transition. -/
theorem invoiceStatusH_valid (g : GenCtx) (st : MockState) (t ref : String)
    (s : MockSession) (inv : MockInvoice)
    (hs : sessionLookup st (some t) = some s)
    (hi : st.invoices.lookup ref = some inv) :
    invoiceStatusH g st (some t) ref =
      (if invoiceAgeAccepted inv.createdAtMs g.nowMs then
        (⟨200, .invoiceStatusResp g.isoTimestamp (g.refNum 0) ref 200
            "Faktura została zaakceptowana"
            (some ⟨inv.invoiceNumber, inv.ksefReferenceNumber, inv.createdAtIso⟩)⟩,
          { st with invoices := st.invoices.map (fun p =>
              if p.1 = ref then (p.1, { p.2 with status := "accepted" }) else p) })
      else
        (⟨200, .invoiceStatusResp g.isoTimestamp (g.refNum 0) ref 100
            "Faktura w trakcie przetwarzania" none⟩, st)) := by
  simp only [invoiceStatusH, hs, hi]
  by_cases hb : invoiceAgeAccepted inv.createdAtMs g.nowMs <;>
    simp [hb, generateReferenceNumber]

/-- Looking up the invoice after the in-place acceptance update. -/
theorem lookup_map_accept (l : List (String × MockInvoice)) (ref : String) (inv : MockInvoice)
    (h : l.lookup ref = some inv) :
    (l.map (fun p => if p.1 = ref then (p.1, { p.2 with status := "accepted" }) else p)).lookup
      ref = some { inv with status := "accepted" } := by
  induction l with
  | nil => simp at h
  | cons p l ih =>
    cases p with
    | mk k v =>
      by_cases hk : k = ref
      · subst hk
        simp only [List.lookup, beq_self_eq_true] at h
        injection h with h
        subst h
        simp only [List.map_cons, if_true]
        simp [List.lookup]
      · have hbe : (ref == k) = false := by
          simp only [beq_eq_false_iff_ne, ne_eq]
          intro hh
          exact hk hh.symm
        simp only [List.lookup, hbe] at h
        simp only [List.map_cons]
        rw [if_neg (by simpa using hk)]
        simp only [List.lookup, hbe]
        exact ih h

/-- Claim C3, as stated, is false: at exactly two minutes after creation
(elapsed = 120000 ms, so "at least 2 minutes" has elapsed), the status read
still reports `processing`, because the source compares `ageMinutes > 2`
strictly. -/
theorem c3_counterexample :
    2 * 60 * 1000 ≤ (gAt 120000).nowMs - invExample.createdAtMs ∧
    (invoiceStatusH (gAt 120000) stExample (some "tok1") "inv1").1 =
      ⟨200, .invoiceStatusResp (gAt 120000).isoTimestamp ((gAt 120000).refNum 0) "inv1" 100
        "Faktura w trakcie przetwarzania" none⟩ := by
  constructor
  · decide
  · have hb : ¬ invoiceAgeAccepted invExample.createdAtMs (gAt 120000).nowMs = true := by
      intro h
      have h2 := (invoiceAgeAccepted_iff _ _).mp h
      simp [invExample, gAt, gExample] at h2
    rw [invoiceStatusH_valid (gAt 120000) stExample "tok1" "inv1" sessExample invExample rfl rfl,
        if_neg hb]

/-- C3 (amended): a status read reports `accepted` iff strictly more than
2 minutes (120000 ms) have elapsed since creation (at exactly 2 minutes it
still reports `processing`); a read at T+1s reports `processing`, a read at
T+121s reports `accepted`, and once a read has reported `accepted`, no later
read of the resulting state reports `processing` again. -/
theorem c3_status_time_gate (g : GenCtx) (st : MockState) (t ref : String)
    (s : MockSession) (inv : MockInvoice)
    (hs : sessionLookup st (some t) = some s)
    (hi : st.invoices.lookup ref = some inv) :
    (reportsAccepted (invoiceStatusH g st (some t) ref).1 ↔
      inv.createdAtMs + 120000 < g.nowMs) ∧
    (g.nowMs = inv.createdAtMs + 1000 →
      reportsProcessing (invoiceStatusH g st (some t) ref).1) ∧
    (g.nowMs = inv.createdAtMs + 121000 →
      reportsAccepted (invoiceStatusH g st (some t) ref).1) ∧
    (∀ g2 : GenCtx, reportsAccepted (invoiceStatusH g st (some t) ref).1 →
      g.nowMs ≤ g2.nowMs →
      reportsAccepted (invoiceStatusH g2 (invoiceStatusH g st (some t) ref).2 (some t) ref).1 ∧
      ¬ reportsProcessing
        (invoiceStatusH g2 (invoiceStatusH g st (some t) ref).2 (some t) ref).1) := by
  have hv := invoiceStatusH_valid g st t ref s inv hs hi
  have hthr := invoiceAgeAccepted_iff inv.createdAtMs g.nowMs
  by_cases hb : invoiceAgeAccepted inv.createdAtMs g.nowMs = true
  · refine ⟨⟨fun _ => hthr.mp hb, fun _ => ?_⟩, fun h1s => ?_, fun _ => ?_, fun g2 hA hle => ?_⟩
    · rw [hv, if_pos hb]
      exact ⟨_, _, _, _, rfl⟩
    · exfalso
      have := hthr.mp hb
      omega
    · rw [hv, if_pos hb]
      exact ⟨_, _, _, _, rfl⟩
    · have hs2 : sessionLookup
          { st with invoices := st.invoices.map (fun p =>
              if p.1 = ref then (p.1, { p.2 with status := "accepted" }) else p) }
          (some t) = some s := hs
      have hi2 := lookup_map_accept st.invoices ref inv hi
      have hv2 := invoiceStatusH_valid g2 _ t ref s { inv with status := "accepted" } hs2 hi2
      have hb2 : invoiceAgeAccepted ({ inv with status := "accepted" } : MockInvoice).createdAtMs
          g2.nowMs = true := by
        rw [invoiceAgeAccepted_iff]
        have := hthr.mp hb
        simp only []
        omega
      have hst : (invoiceStatusH g st (some t) ref).2 =
          { st with invoices := st.invoices.map (fun p =>
              if p.1 = ref then (p.1, { p.2 with status := "accepted" }) else p) } := by
        rw [hv, if_pos hb]
      rw [hst]
      constructor
      · rw [hv2, if_pos hb2]
        exact ⟨_, _, _, _, rfl⟩
      · rw [hv2, if_pos hb2]
        rintro ⟨ts, rn, rf, heq⟩
        simp at heq
  · have hbf : invoiceAgeAccepted inv.createdAtMs g.nowMs = false := by
      simpa using hb
    refine ⟨⟨fun hA => ?_, fun hlt => ?_⟩, fun _ => ?_, fun h121 => ?_, fun g2 hA hle => ?_⟩
    · exfalso
      rcases hA with ⟨ts, rn, rf, det, heq⟩
      rw [hv, if_neg hb] at heq
      simp at heq
    · exact absurd (hthr.mpr hlt) hb
    · rw [hv, if_neg hb]
      exact ⟨_, _, _, rfl⟩
    · exact absurd (hthr.mpr (by omega)) hb
    · exfalso
      rcases hA with ⟨ts, rn, rf, det, heq⟩
      rw [hv, if_neg hb] at heq
      simp at heq

/-- Witness for C3: on the concrete store, a read 1 s after creation reports
`processing` and a read 121 s after creation reports `accepted`. -/
theorem c3_status_time_gate_witness :
    reportsProcessing (invoiceStatusH (gAt 1000) stExample (some "tok1") "inv1").1 ∧
    reportsAccepted (invoiceStatusH (gAt 121000) stExample (some "tok1") "inv1").1 :=
  ⟨(c3_status_time_gate (gAt 1000) stExample "tok1" "inv1" sessExample invExample rfl
      rfl).2.1 rfl,
   (c3_status_time_gate (gAt 121000) stExample "tok1" "inv1" sessExample invExample rfl
      rfl).2.2.1 rfl⟩

/-! ## Claim C2 — base64 round-trip through init-session-signed -/

/-- Base64 encoding of a nonempty byte list is nonempty. -/
theorem base64EncodeBytes_ne_nil (b : List Nat) (h : b ≠ []) : base64EncodeBytes b ≠ [] := by
  match b with
  | [] => exact absurd rfl h
  | [b1] => simp [base64EncodeBytes]
  | [b1, b2] => simp [base64EncodeBytes]
  | b1 :: b2 :: b3 :: r => simp [base64EncodeBytes]

/-- Claim C2, as stated, is false: the byte sequence `[0xFF]` is not valid
UTF-8, so the signed-session-init route (compressed = false) forwards the
UTF-8 replacement character bytes `EF BF BD` instead of the original byte. -/
theorem c2_counterexample :
    initSessionSigned none (fun _ => none)
      (some (String.mk (base64EncodeBytes [255]))) none none false =
      .forward "https://ksef-test.mf.gov.pl/api/online/Session/InitSigned" [239, 191, 189] ∧
    ([239, 191, 189] : List Nat) ≠ [255] := by
  constructor
  · decide
  · decide

/-- C2 (amended): for every nonempty byte sequence that is a valid UTF-8
encoding of Unicode scalar values, base64-encoding it and submitting it as
`signedXmlBase64` with `compressed = false` forwards exactly the original
bytes to the upstream session-init endpoint; byte sequences that are not
valid UTF-8 are corrupted by the intermediate string conversion. -/
theorem c2_signed_roundtrip (api : Option String) (gz : List Nat → Option (List Nat))
    (file : Option (List Nat)) (env : Option String) (b : List Nat)
    (hne : b ≠ []) (hb : ∀ x ∈ b, x < 256)
    (hutf : ∃ cps, (∀ c ∈ cps, IsScalar c) ∧ utf8EncodeCps cps = b) :
    initSessionSigned api gz (some (String.mk (base64EncodeBytes b))) file env false =
      .forward (getKsefUrl api env ++ "/api/online/Session/InitSigned") b := by
  obtain ⟨cps, hcps, henc⟩ := hutf
  have hchars : base64EncodeBytes b ≠ [] := base64EncodeBytes_ne_nil b hne
  have htruthy : jsTruthy (some (String.mk (base64EncodeBytes b))) = true := by
    simp only [jsTruthy, bne_iff_ne, ne_eq]
    intro hq
    exact hchars (congrArg String.toList hq)
  unfold initSessionSigned
  rw [if_pos htruthy]
  rw [if_neg (by simp)]
  have hdec : nodeBase64Decode ((some (String.mk (base64EncodeBytes b))).getD "") = b := by
    unfold nodeBase64Decode
    rw [show ((some (String.mk (base64EncodeBytes b))).getD "").toList =
      base64EncodeBytes b from rfl]
    exact nodeB64_roundtrip b hb
  rw [hdec]
  unfold textWireBytes
  rw [← henc, utf8_decode_encode cps hcps]

/-- Witness for C2: the three UTF-8 bytes of `<a>` survive the round trip. -/
theorem c2_signed_roundtrip_witness :
    initSessionSigned none (fun _ => none)
      (some (String.mk (base64EncodeBytes [60, 97, 62]))) none none false =
      .forward (getKsefUrl none none ++ "/api/online/Session/InitSigned") [60, 97, 62] :=
  c2_signed_roundtrip none (fun _ => none) none none [60, 97, 62] (by decide) (by decide)
    ⟨[60, 97, 62], by decide, by decide⟩

/-! ## Claim C7 — send-invoice payload handling -/

/-- C7: with both required fields present, `contentType = zip` forwards the
raw decoded bytes as `application/zip`; `gzip` forwards the decompressed text
as `application/xml`; `xml` forwards the decoded bytes as text
(`application/xml`); any other `contentType` fails with the validation error
before any upstream call. -/
theorem c7_send_invoice_content (api : Option String) (gz : List Nat → Option (List Nat))
    (tok b64 : String) (env : Option String) (htok : tok ≠ "") (hb64 : b64 ≠ "") :
    (sendInvoice api gz (some tok) (some b64) env "zip" =
      .forward (getKsefUrl api env ++ "/api/online/Invoice/Send") "application/zip"
        (nodeBase64Decode b64)) ∧
    (∀ xs, gz (nodeBase64Decode b64) = some xs →
      sendInvoice api gz (some tok) (some b64) env "gzip" =
        .forward (getKsefUrl api env ++ "/api/online/Invoice/Send") "application/xml"
          (textWireBytes xs)) ∧
    (sendInvoice api gz (some tok) (some b64) env "xml" =
      .forward (getKsefUrl api env ++ "/api/online/Invoice/Send") "application/xml"
        (textWireBytes (nodeBase64Decode b64))) ∧
    (∀ ct, ct ≠ "xml" → ct ≠ "gzip" → ct ≠ "zip" →
      sendInvoice api gz (some tok) (some b64) env ct =
        .badRequest "Invalid contentType. Must be one of: xml, gzip, zip") := by
  refine ⟨?_, fun xs hxs => ?_, ?_, fun ct h1 h2 h3 => ?_⟩
  · simp [sendInvoice, jsTruthy, htok, hb64]
  · simp [sendInvoice, jsTruthy, htok, hb64, hxs]
  · simp [sendInvoice, jsTruthy, htok, hb64]
  · simp [sendInvoice, jsTruthy, htok, hb64, h1, h2, h3]

/-- Witness for C7: concrete zip payload and an invalid kind `pdf`. -/
theorem c7_send_invoice_content_witness :
    (sendInvoice none (fun _ => none) (some "tok") (some "QQ==") none "zip" =
      .forward (getKsefUrl none none ++ "/api/online/Invoice/Send") "application/zip"
        (nodeBase64Decode "QQ==")) ∧
    (sendInvoice none (fun _ => none) (some "tok") (some "QQ==") none "pdf" =
      .badRequest "Invalid contentType. Must be one of: xml, gzip, zip") :=
  ⟨(c7_send_invoice_content none (fun _ => none) "tok" "QQ==" none (by decide) (by decide)).1,
   (c7_send_invoice_content none (fun _ => none) "tok" "QQ==" none (by decide)
      (by decide)).2.2.2 "pdf" (by decide) (by decide) (by decide)⟩

/-! ## Claim C8 — token-init orchestration and abort semantics -/

/-- C8: `/init-session-token` performs challenge request, public-key fetch,
token-string construction, RSA-PKCS1 encryption of the UTF-8 bytes of
``timestamp|authToken``, base64 encoding, XML rendering and the upstream
POST, in that order; the first failing step aborts the whole operation with
exactly the steps so far in the trace and that step's error surfaced, and no
session result is produced; when every step succeeds, the POSTed XML embeds
the challenge, the NIP and the base64 ciphertext. -/
theorem c8_init_token_orchestration {E R : Type} (o : InitTokenOracle E R)
    (nip authToken : String) (hn : nip ≠ "") (ha : authToken ≠ "") :
    (∀ e, o.challengeResult = .error e →
      initSessionToken o (some nip) (some authToken) = (.failed e, [.challengeStep])) ∧
    (∀ ch ts e, o.challengeResult = .ok (ch, ts) → o.publicKeyResult = .error e →
      initSessionToken o (some nip) (some authToken) =
        (.failed e, [.challengeStep, .publicKeyStep])) ∧
    (∀ ch ts pk e, o.challengeResult = .ok (ch, ts) → o.publicKeyResult = .ok pk →
      o.rsaEncrypt pk (stringUtf8Bytes (tokenPlaintext ts authToken)) = .error e →
      initSessionToken o (some nip) (some authToken) =
        (.failed e, [.challengeStep, .publicKeyStep, .encryptStep])) ∧
    (∀ ch ts pk cipher e, o.challengeResult = .ok (ch, ts) → o.publicKeyResult = .ok pk →
      o.rsaEncrypt pk (stringUtf8Bytes (tokenPlaintext ts authToken)) = .ok cipher →
      o.postResult (initTokenXml ch nip (String.mk (base64EncodeBytes cipher))) = .error e →
      initSessionToken o (some nip) (some authToken) =
        (.failed e, [.challengeStep, .publicKeyStep, .encryptStep, .postStep])) ∧
    (∀ ch ts pk cipher r, o.challengeResult = .ok (ch, ts) → o.publicKeyResult = .ok pk →
      o.rsaEncrypt pk (stringUtf8Bytes (tokenPlaintext ts authToken)) = .ok cipher →
      o.postResult (initTokenXml ch nip (String.mk (base64EncodeBytes cipher))) = .ok r →
      initSessionToken o (some nip) (some authToken) =
        (.ok r, [.challengeStep, .publicKeyStep, .encryptStep, .postStep])) := by
  refine ⟨fun e h1 => ?_,
          fun ch ts e h1 h2 => ?_,
          fun ch ts pk e h1 h2 h3 => ?_,
          fun ch ts pk cipher e h1 h2 h3 h4 => ?_,
          fun ch ts pk cipher r h1 h2 h3 h4 => ?_⟩ <;>
    simp [initSessionToken, jsTruthy, hn, ha, h1] <;>
    simp [h2] <;> simp [h3] <;> simp [h4]

/-- Witness for C8: a fully successful concrete orchestration. -/
theorem c8_init_token_orchestration_witness :
    initSessionToken
      ({ challengeResult := .ok ("CH", "TS")
         publicKeyResult := .ok "PK"
         rsaEncrypt := fun _ _ => .ok [1, 2, 3]
         postResult := fun _ => .ok 7 } : InitTokenOracle String Nat)
      (some "1111111111") (some "authtok") =
      (.ok 7, [.challengeStep, .publicKeyStep, .encryptStep, .postStep]) :=
  (c8_init_token_orchestration
    ({ challengeResult := .ok ("CH", "TS")
       publicKeyResult := .ok "PK"
       rsaEncrypt := fun _ _ => .ok [1, 2, 3]
       postResult := fun _ => .ok 7 } : InitTokenOracle String Nat)
    "1111111111" "authtok" (by decide) (by decide)).2.2.2.2
    "CH" "TS" "PK" [1, 2, 3] 7 rfl rfl rfl rfl
